import Mathlib

/-!
Verification of the MXL Rust bindings (`rochonma/mxl`) against their
natural-language specification.

The development shallowly embeds the marshaling layer of the bindings:

* the native status codes and `Error::from_status`
  (`src/rust-bindings/mxl/src/error.rs`);
* the RAII write sessions `GrainWriteAccess` / `SamplesWriteAccess`
  (`src/rust/mxl/src/grain/write_access.rs`,
  `src/rust/mxl/src/samples/write_access.rs`);
* the reader/writer handle teardown `destroy_inner`
  (`src/rust/mxl/src/grain/reader.rs`, `grain/writer.rs`,
  `samples/reader.rs`, `samples/writer.rs`);
* `GrainReader::get_complete_grain` (`src/rust/mxl/src/grain/reader.rs`);
* `MxlInstance::get_flow_def`, `MxlInstance::destroy` and the
  time/index conversions (`src/rust/mxl/src/instance.rs`);
* the `Send`/`Sync` marker discipline of the wrapper types.

The native library is reached only through its C ABI, so every native
function is modelled as an oracle parameter: a function from the
arguments the binding passes (and, for calls inside loops, the number of
native calls already made, standing for the passage of time in the
shared-memory ring) to the values the native side produces.
-/

namespace Mxl

/-! ## Native status codes

Modelled from the spec: the numeric values of the `mxlStatus` enum come
from the C headers (`mxl-headers-2025-06-17`), which are not part of the
Rust sources; the spec describes "an integer status code enum" with
`MXL_STATUS_OK` plus the error codes listed below.  They are modelled as
a sequential C enum starting at 0; nothing below depends on the exact
values, only on their distinctness. -/

def MXL_STATUS_OK : Nat := 0

def MXL_ERR_UNKNOWN : Nat := 1

def MXL_ERR_FLOW_NOT_FOUND : Nat := 2

def MXL_ERR_OUT_OF_RANGE_TOO_LATE : Nat := 3

def MXL_ERR_OUT_OF_RANGE_TOO_EARLY : Nat := 4

def MXL_ERR_INVALID_FLOW_READER : Nat := 5

def MXL_ERR_INVALID_FLOW_WRITER : Nat := 6

def MXL_ERR_TIMEOUT : Nat := 7

def MXL_ERR_INVALID_ARG : Nat := 8

def MXL_ERR_CONFLICT : Nat := 9

/-- The set of status codes that appear as explicit match arms of
`Error::from_status` (`src/rust-bindings/mxl/src/error.rs:33-43`),
`MXL_STATUS_OK` included. -/
def knownStatuses : List Nat :=
  [MXL_STATUS_OK, MXL_ERR_UNKNOWN, MXL_ERR_FLOW_NOT_FOUND,
   MXL_ERR_OUT_OF_RANGE_TOO_LATE, MXL_ERR_OUT_OF_RANGE_TOO_EARLY,
   MXL_ERR_INVALID_FLOW_READER, MXL_ERR_INVALID_FLOW_WRITER,
   MXL_ERR_TIMEOUT, MXL_ERR_INVALID_ARG, MXL_ERR_CONFLICT]

/-- The `Error` enum of `src/rust-bindings/mxl/src/error.rs:4-29`.
`Other` wraps a message string; `DlOpen` wraps a dynamic-library load
failure (its payload kept as the error text). -/
inductive Error where
  | Unknown
  | FlowNotFound
  | OutOfRangeTooLate
  | OutOfRangeTooEarly
  | InvalidFlowReader
  | InvalidFlowWriter
  | Timeout
  | InvalidArg
  | Conflict
  | Other (msg : String)
  | DlOpen (msg : String)
  deriving Repr, DecidableEq

/-- `Error::from_status` (`src/rust-bindings/mxl/src/error.rs:32-46`).
The Rust `match` on constant patterns is rendered as an `if` chain in
the same arm order; the final `else` is the wildcard arm `_ =>
Err(Error::Unknown)`. -/
def Error.from_status (status : Nat) : Except Error Unit :=
  if status = MXL_STATUS_OK then .ok ()
  else if status = MXL_ERR_UNKNOWN then .error .Unknown
  else if status = MXL_ERR_FLOW_NOT_FOUND then .error .FlowNotFound
  else if status = MXL_ERR_OUT_OF_RANGE_TOO_LATE then .error .OutOfRangeTooLate
  else if status = MXL_ERR_OUT_OF_RANGE_TOO_EARLY then .error .OutOfRangeTooEarly
  else if status = MXL_ERR_INVALID_FLOW_READER then .error .InvalidFlowReader
  else if status = MXL_ERR_INVALID_FLOW_WRITER then .error .InvalidFlowWriter
  else if status = MXL_ERR_TIMEOUT then .error .Timeout
  else if status = MXL_ERR_INVALID_ARG then .error .InvalidArg
  else if status = MXL_ERR_CONFLICT then .error .Conflict
  else .error .Unknown

/-! ## RAII write sessions

`GrainWriteAccess` (`src/rust/mxl/src/grain/write_access.rs`) and
`SamplesWriteAccess` (`src/rust/mxl/src/samples/write_access.rs`).
Every method of a session is embedded as a function returning the Rust
result, the updated session state, and the list of native calls it
issues, in order.  Since `commit` and `cancel` take `self` by value,
`Drop::drop` runs when they return; a full session lifecycle is the
trace of one explicit action (or none) followed by the drop. -/

/-- The fields of `mxlGrainInfo` that the write session reads or writes
(`grainSize`, `commitedSize`, both `u32` in the ABI). -/
structure GrainInfo where
  grainSize : Nat
  commitedSize : Nat
  deriving Repr, DecidableEq

/-- The native functions a write session can call through the API table. -/
inductive WriterNativeCall where
  | commitGrain (grain_info : GrainInfo)
  | cancelGrain
  | commitSamples
  | cancelSamples
  deriving Repr, DecidableEq

/-- State of a `GrainWriteAccess` session
(`src/rust/mxl/src/grain/write_access.rs:13-21`): the grain info and the
`committed_or_canceled` drop flag.  Pointers and the shared context play
no role in the commit/cancel control flow and are omitted. -/
structure GrainWriteAccess where
  grain_info : GrainInfo
  committed_or_canceled : Bool
  deriving Repr, DecidableEq

/-- `GrainWriteAccess::new` (`write_access.rs:24-38`): the flag starts
out `false`. -/
def GrainWriteAccess.new (grain_info : GrainInfo) : GrainWriteAccess :=
  { grain_info := grain_info, committed_or_canceled := false }

/-- `GrainWriteAccess::commit` (`grain/write_access.rs:58-76`).  The
`native` oracle gives the status returned by each native call.  The flag
is set before the size check; an oversize commit returns
`Error::Other(..)` with no native call. -/
def GrainWriteAccess.commit (native : WriterNativeCall → Nat)
    (s : GrainWriteAccess) (commited_size : Nat) :
    Except Error Unit × GrainWriteAccess × List WriterNativeCall :=
  let s := { s with committed_or_canceled := true }
  if commited_size > s.grain_info.grainSize then
    (.error (.Other ("Commited size " ++ toString commited_size ++
      " cannot exceed grain size " ++ toString s.grain_info.grainSize ++ ".")),
     s, [])
  else
    let s := { s with grain_info.commitedSize := commited_size }
    let call := WriterNativeCall.commitGrain s.grain_info
    (Error.from_status (native call), s, [call])

/-- `GrainWriteAccess::cancel` (`grain/write_access.rs:82-86`). -/
def GrainWriteAccess.cancel (native : WriterNativeCall → Nat)
    (s : GrainWriteAccess) :
    Except Error Unit × GrainWriteAccess × List WriterNativeCall :=
  let s := { s with committed_or_canceled := true }
  (Error.from_status (native .cancelGrain), s, [.cancelGrain])

/-- The native calls issued by `Drop for GrainWriteAccess`
(`grain/write_access.rs:89-99`): cancel the grain unless the session was
already committed or canceled (a failed cancel is only logged). -/
def GrainWriteAccess.dropCalls (s : GrainWriteAccess) : List WriterNativeCall :=
  if !s.committed_or_canceled then [.cancelGrain] else []

/-- State of a `SamplesWriteAccess` session
(`src/rust/mxl/src/samples/write_access.rs:16-23`): only the
`committed_or_canceled` drop flag matters to commit/cancel control flow. -/
structure SamplesWriteAccess where
  committed_or_canceled : Bool
  deriving Repr, DecidableEq

/-- `SamplesWriteAccess::new` (`samples/write_access.rs:26-38`). -/
def SamplesWriteAccess.new : SamplesWriteAccess :=
  { committed_or_canceled := false }

/-- `SamplesWriteAccess::commit` (`samples/write_access.rs:40-44`). -/
def SamplesWriteAccess.commit (native : WriterNativeCall → Nat)
    (s : SamplesWriteAccess) :
    Except Error Unit × SamplesWriteAccess × List WriterNativeCall :=
  let s := { s with committed_or_canceled := true }
  (Error.from_status (native .commitSamples), s, [.commitSamples])

/-- `SamplesWriteAccess::cancel` (`samples/write_access.rs:50-54`). -/
def SamplesWriteAccess.cancel (native : WriterNativeCall → Nat)
    (s : SamplesWriteAccess) :
    Except Error Unit × SamplesWriteAccess × List WriterNativeCall :=
  let s := { s with committed_or_canceled := true }
  (Error.from_status (native .cancelSamples), s, [.cancelSamples])

/-- Native calls issued by `Drop for SamplesWriteAccess`
(`samples/write_access.rs:86-96`). -/
def SamplesWriteAccess.dropCalls (s : SamplesWriteAccess) : List WriterNativeCall :=
  if !s.committed_or_canceled then [.cancelSamples] else []

/-- What the caller does with a write session before it goes out of
scope: call `commit`, call `cancel`, or neither (the session is simply
dropped). -/
inductive SessionAction where
  | commit (sz : Nat)
  | cancel
  | drop
  deriving Repr, DecidableEq

/-- The complete native-call trace of one `GrainWriteAccess` lifecycle:
the explicit action's calls (if any) followed by the calls of the drop
that runs when the session is consumed or leaves scope. -/
def grainSessionTrace (native : WriterNativeCall → Nat) (g : GrainInfo) :
    SessionAction → List WriterNativeCall
  | .commit sz =>
    let r := (GrainWriteAccess.new g).commit native sz
    r.2.2 ++ r.2.1.dropCalls
  | .cancel =>
    let r := (GrainWriteAccess.new g).cancel native
    r.2.2 ++ r.2.1.dropCalls
  | .drop => (GrainWriteAccess.new g).dropCalls

/-- The complete native-call trace of one `SamplesWriteAccess`
lifecycle.  A `.commit sz` action ignores `sz`: the samples commit takes
no size argument. -/
def samplesSessionTrace (native : WriterNativeCall → Nat) :
    SessionAction → List WriterNativeCall
  | .commit _ =>
    let r := SamplesWriteAccess.new.commit native
    r.2.2 ++ r.2.1.dropCalls
  | .cancel =>
    let r := SamplesWriteAccess.new.cancel native
    r.2.2 ++ r.2.1.dropCalls
  | .drop => SamplesWriteAccess.new.dropCalls

/-! ## Reader/writer handle teardown

`GrainReader::destroy_inner` (`src/rust/mxl/src/grain/reader.rs:116-129`),
`GrainWriter::destroy_inner` (`src/rust/mxl/src/grain/writer.rs:56-69`),
`SamplesReader::destroy_inner` (`src/rust/mxl/src/samples/reader.rs:80-93`)
and `SamplesWriter::destroy_inner` (`src/rust/mxl/src/samples/writer.rs:45-58`)
are textually identical up to the names of the handle field and of the
native release function; they are embedded once.  A handle is `some h`
for a non-null native pointer and `none` for the null pointer. -/

/-- A reader/writer wrapper: the stored native handle. -/
structure HandleWrapper where
  handle : Option Nat
  deriving Repr, DecidableEq

/-- `destroy_inner`: if the handle is already null, return
`Err(Error::InvalidArg)` with no native call; otherwise swap the handle
to null, release the swapped-out handle through the native table and
return the mapped status.  The `native` oracle maps the released handle
to the status the native release function returns; the third component
lists the handles passed to the native release function. -/
def HandleWrapper.destroy_inner (native : Nat → Nat) (w : HandleWrapper) :
    Except Error Unit × HandleWrapper × List Nat :=
  match w.handle with
  | none => (.error .InvalidArg, w, [])
  | some h => (Error.from_status (native h), { handle := none }, [h])

/-- `destroy` (e.g. `grain/reader.rs:26-28`): forwards to
`destroy_inner`; since it takes `self` by value, the wrapper's `Drop`
runs right after. -/
def HandleWrapper.destroy (native : Nat → Nat) (w : HandleWrapper) :
    Except Error Unit × HandleWrapper × List Nat :=
  w.destroy_inner native

/-- Native release calls issued by the wrapper's `Drop`
(e.g. `grain/reader.rs:132-140`): nothing when the handle is null,
otherwise `destroy_inner` (whose error is only logged). -/
def HandleWrapper.dropCalls (native : Nat → Nat) (w : HandleWrapper) : List Nat :=
  if w.handle = none then [] else (w.destroy_inner native).2.2

/-- How a wrapper's lifetime ends: an explicit `destroy(self)` (followed
by the drop of the consumed `self`), or a plain drop. -/
inductive WrapperEnd where
  | destroy
  | drop
  deriving Repr, DecidableEq

/-- All handles passed to the native release function over a wrapper's
whole lifetime, for either way the lifetime can end. -/
def wrapperLifetimeCalls (native : Nat → Nat) (w : HandleWrapper) :
    WrapperEnd → List Nat
  | .destroy =>
    let r := w.destroy native
    r.2.2 ++ r.2.1.dropCalls native
  | .drop => w.dropCalls native

/-! ## `GrainReader::get_complete_grain`

`src/rust/mxl/src/grain/reader.rs:34-78`.  The native read
`mxl_flow_reader_get_grain` is an oracle indexed by the number of native
reads already issued in the loop (the grain's commit state can change
between two reads of the same index).  Payload memory behind the
returned pointer is an oracle `Nat → Nat` of byte offsets; a `none`
payload models a null `payload_ptr`. -/

/-- One response of the native `mxlFlowReaderGetGrain` call: the status,
the `mxlGrainInfo` fields the binding reads, and the payload pointer
(`none` = null) with the bytes behind it. -/
structure GrainReadResp where
  status : Nat
  grain_info : GrainInfo
  user_data : List Nat
  payload : Option (Nat → Nat)

/-- `GrainData` (`src/rust/mxl/src/grain/data.rs:4-14`), with byte
slices as lists of bytes. -/
structure GrainData where
  payload : List Nat
  total_size : Nat
  user_data : List Nat

/-- The loop of `get_complete_grain` (`grain/reader.rs:42-62`) plus the
construction of the returned `GrainData` (`reader.rs:64-78`), with fuel
bounding the number of native reads (the Rust loop may spin forever if
the grain stays partial; `none` means the fuel ran out mid-loop).  `k`
counts the native reads already issued.  A non-OK status is returned at
once through `?`; an OK status with `commitedSize != grainSize` retries;
a null payload pointer on a complete grain is `Error::Other`; otherwise
the payload slice is built with length `grainSize` and
`total_size = grainSize`. -/
def get_complete_grain_loop (native : Nat → GrainReadResp) (index : Nat) :
    Nat → Nat → Option (Except Error GrainData)
  | 0, _ => none
  | fuel + 1, k =>
    let r := native k
    match Error.from_status r.status with
    | .error e => some (.error e)
    | .ok () =>
      if r.grain_info.commitedSize ≠ r.grain_info.grainSize then
        get_complete_grain_loop native index fuel (k + 1)
      else
        match r.payload with
        | none => some (.error (.Other
            ("Failed to get grain payload for index " ++ toString index ++ ".")))
        | some mem => some (.ok
            { payload := (List.range r.grain_info.grainSize).map mem,
              total_size := r.grain_info.grainSize,
              user_data := r.user_data })

/-- `get_complete_grain` itself: run the loop from the first native read. -/
def get_complete_grain (native : Nat → GrainReadResp) (index : Nat)
    (fuel : Nat) : Option (Except Error GrainData) :=
  get_complete_grain_loop native index fuel 0

/-! ## `MxlInstance::get_flow_def`

`src/rust/mxl/src/instance.rs:144-180`.  The native `mxlGetFlowDef`
takes a caller-allocated buffer and an in/out size; it is modelled as an
oracle from the buffer size passed in to the status, the reported size,
and the bytes it wrote into the buffer prefix. -/

/-- One response of the native `mxlGetFlowDef` call. -/
structure FlowDefResp where
  status : Nat
  outSize : Nat
  written : List Nat
  deriving Repr, DecidableEq

/-- Contents of a zero-initialized buffer of length `bufSize` after the
native side wrote `written` into its prefix. -/
def bufferAfter (bufSize : Nat) (written : List Nat) : List Nat :=
  written.take bufSize ++ List.replicate (bufSize - written.length) 0

/-- The bounds a lead byte imposes on its continuation bytes (RFC 3629
ranges, as enforced by the Rust standard library's UTF-8 validation):
`some ranges` for a legal lead byte with that list of per-byte bounds,
`none` for an illegal lead byte. -/
def utf8Class (b : Nat) : Option (List (Nat × Nat)) :=
  if b < 0x80 then some []
  else if 0xC2 ≤ b ∧ b ≤ 0xDF then some [(0x80, 0xBF)]
  else if b = 0xE0 then some [(0xA0, 0xBF), (0x80, 0xBF)]
  else if b = 0xED then some [(0x80, 0x9F), (0x80, 0xBF)]
  else if 0xE0 ≤ b ∧ b ≤ 0xEF then some [(0x80, 0xBF), (0x80, 0xBF)]
  else if b = 0xF0 then some [(0x90, 0xBF), (0x80, 0xBF), (0x80, 0xBF)]
  else if b = 0xF4 then some [(0x80, 0x8F), (0x80, 0xBF), (0x80, 0xBF)]
  else if 0xF0 ≤ b ∧ b ≤ 0xF4 then some [(0x80, 0xBF), (0x80, 0xBF), (0x80, 0xBF)]
  else none

/-- One step of the UTF-8 validation automaton: the state is the list
of bounds still expected for the current sequence (`some []` between
sequences), or `none` once the input is invalid. -/
def utf8Step : Option (List (Nat × Nat)) → Nat → Option (List (Nat × Nat))
  | none, _ => none
  | some [], b => utf8Class b
  | some ((lo, hi) :: expect), b => if lo ≤ b ∧ b ≤ hi then some expect else none

/-- `String::from_utf8` succeeds exactly on valid UTF-8; this models
the Rust standard library's byte-level validation: the automaton ends
between sequences. -/
def validUtf8 (l : List Nat) : Bool :=
  decide (l.foldl utf8Step (some []) = some [])

/-- `INITIAL_BUFFER_SIZE` (`instance.rs:146`). -/
def INITIAL_BUFFER_SIZE : Nat := 4096

/-- `MxlInstance::get_flow_def` (`instance.rs:144-180`).  First
component: the Rust result, with `Ok` carrying the bytes of the
returned `String`.  Second component: the buffer sizes passed to the
native call, in order (so its length is the number of native calls).

The first native call uses a 4096-byte zeroed buffer.  If it returns
`MXL_ERR_INVALID_ARG` with a reported size larger than 4096, one retry
is made with a zeroed buffer of the reported size; otherwise the first
status is mapped as-is.  Then a single trailing NUL at position
`buffer_size - 1`, when present, is dropped, the buffer is truncated to
`buffer_size`, and the bytes are UTF-8-checked. -/
def get_flow_def (native : Nat → FlowDefResp) :
    Except Error (List Nat) × List Nat :=
  let r1 := native INITIAL_BUFFER_SIZE
  let afterCalls : Except Error (List Nat × Nat) × List Nat :=
    if r1.status = MXL_ERR_INVALID_ARG ∧ r1.outSize > INITIAL_BUFFER_SIZE then
      let r2 := native r1.outSize
      (match Error.from_status r2.status with
       | .error e => .error e
       | .ok () => .ok (bufferAfter r1.outSize r2.written, r2.outSize),
       [INITIAL_BUFFER_SIZE, r1.outSize])
    else
      (match Error.from_status r1.status with
       | .error e => .error e
       | .ok () => .ok (bufferAfter INITIAL_BUFFER_SIZE r1.written, r1.outSize),
       [INITIAL_BUFFER_SIZE])
  match afterCalls with
  | (.error e, calls) => (.error e, calls)
  | (.ok (buffer, buffer_size), calls) =>
    let buffer_size :=
      if buffer_size > 0 ∧ buffer.getD (buffer_size - 1) 1 = 0 then
        buffer_size - 1
      else buffer_size
    let buffer := buffer.take buffer_size
    if validUtf8 buffer then (.ok buffer, calls)
    else (.error (.Other "Invalid UTF-8 in flow definition"), calls)

/-! ## `MxlInstance::destroy` and `InstanceContext`

`src/rust/mxl/src/instance.rs:12-42` and `:239-248`.  The shared
`InstanceContext` holds the API table and the raw `mxlInstance` handle
(`some h` non-null, `none` null). -/

/-- The `InstanceContext` state (`instance.rs:12-15`); the API table
plays no role in the destruction control flow.  The field `instance` of
the Rust struct is named `inst` (`instance` is a Lean keyword). -/
structure InstanceContext where
  inst : Option Nat
  deriving Repr, DecidableEq

/-- A call to the native `mxlDestroyInstance`, recording the handle
argument it receives (`none` = the null pointer). -/
inductive InstanceCall where
  | destroyInstance (h : Option Nat)
  deriving Repr, DecidableEq

/-- Native calls issued by `Drop for InstanceContext`
(`instance.rs:36-42`): destroy the stored handle unless it is null. -/
def InstanceContext.dropCalls (ctx : InstanceContext) : List InstanceCall :=
  match ctx.inst with
  | none => []
  | some h => [.destroyInstance (some h)]

/-- `InstanceContext::destroy` (`instance.rs:26-33`), followed by the
drop of the consumed `self`.  Line by line: a local `instance` starts
null; `mem::swap(&mut self.instance, &mut instance)` moves the stored
handle into the local and nulls the field; then the code calls
`mxl_destroy_instance(self.instance)` — the FIELD, which the swap has
just nulled — and returns `Ok(())`.  The drop of `self` then sees a
null field and does nothing. -/
def InstanceContext.destroy (ctx : InstanceContext) :
    Except Error Unit × List InstanceCall :=
  let _moved := ctx.inst
  let afterSwap : InstanceContext := { inst := none }
  let calls := [InstanceCall.destroyInstance afterSwap.inst]
  (.ok (), calls ++ afterSwap.dropCalls)

/-- `MxlInstance` as seen by `destroy` (`instance.rs:65-68`,
`:243-247`): the shared context plus the number of OTHER strong
references to the same `Arc<InstanceContext>` (clones, readers,
writers).  `Arc::into_inner` succeeds exactly when that number is 0. -/
structure MxlInstance where
  context : InstanceContext
  otherHolders : Nat
  deriving Repr, DecidableEq

/-- `MxlInstance::destroy` (`instance.rs:243-247`). -/
def MxlInstance.destroy (m : MxlInstance) :
    Except Error Unit × List InstanceCall :=
  if m.otherHolders ≠ 0 then
    (.error (.Other "Instance is still in use."), [])
  else
    m.context.destroy

/-! ## Time/index conversions

`src/rust/mxl/src/instance.rs:186-225`.  Each conversion forwards to a
native function returning a `u64` and treats `u64::MAX` as the
invalid-rate sentinel; the native return value is the oracle parameter. -/

/-- `u64::MAX`. -/
def U64_MAX : Nat := 2 ^ 64 - 1

/-- `mxlRational` as used here: only the two fields printed in the
error messages. -/
structure MxlRational where
  numerator : Int
  denominator : Int
  deriving Repr, DecidableEq

/-- The invalid-rate error message, shared shape of the three
conversions (`instance.rs:193-196`, `:206-209`, `:218-221`). -/
def invalidRateMsg (what : String) (rate : MxlRational) : Error :=
  .Other ("Failed to " ++ what ++ ", invalid rate " ++
    toString rate.numerator ++ "/" ++ toString rate.denominator ++ ".")

/-- `MxlInstance::get_duration_until_index` (`instance.rs:186-200`);
`duration_ns` is the value returned by the native
`mxl_get_ns_until_index`; the `Duration` is its nanosecond count. -/
def get_duration_until_index (duration_ns : Nat) (rate : MxlRational) :
    Except Error Nat :=
  if duration_ns = U64_MAX then
    .error (invalidRateMsg "get duration until index" rate)
  else
    .ok duration_ns

/-- `MxlInstance::timestamp_to_index` (`instance.rs:203-213`); `index`
is the value returned by the native `mxl_timestamp_to_index`. -/
def timestamp_to_index (index : Nat) (rate : MxlRational) :
    Except Error Nat :=
  if index = U64_MAX then
    .error (invalidRateMsg "convert timestamp to index" rate)
  else
    .ok index

/-- `MxlInstance::index_to_timestamp` (`instance.rs:215-225`);
`timestamp` is the value returned by the native
`mxl_index_to_timestamp`. -/
def index_to_timestamp (timestamp : Nat) (rate : MxlRational) :
    Except Error Nat :=
  if timestamp = U64_MAX then
    .error (invalidRateMsg "convert index to timestamp" rate)
  else
    .ok timestamp

/-! ## `Send`/`Sync` markers of the wrapper types

Rust's auto-trait rules, restricted to the type shapes the wrappers
use: a raw pointer is neither `Send` nor `Sync`; `Arc<T>` is `Send`
(resp. `Sync`) iff `T` is both `Send` and `Sync`; a struct is
auto-`Send`/auto-`Sync` iff all its fields are, and an
`unsafe impl Send/Sync` declaration overrides the auto computation to
`true`. -/

/-- Type shapes: `prim s y` is a leaf with known markers (raw pointers
are `prim false false`), `arc t` is `Arc<t>`, `prod a b` a pair of
fields, and `declared body us uy` a nominal struct with its field tuple
and its `unsafe impl Send` / `unsafe impl Sync` declarations. -/
inductive RustTy where
  | prim (send sync : Bool)
  | arc (t : RustTy)
  | prod (a b : RustTy)
  | declared (body : RustTy) (unsafeSend unsafeSync : Bool)
  deriving Repr, DecidableEq

/-- `(Send, Sync)` markers of a type shape under Rust's rules. -/
def RustTy.markers : RustTy → Bool × Bool
  | .prim s y => (s, y)
  | .arc t =>
    let m := t.markers
    (m.1 && m.2, m.1 && m.2)
  | .prod a b =>
    let ma := a.markers
    let mb := b.markers
    (ma.1 && mb.1, ma.2 && mb.2)
  | .declared body us uy =>
    let m := body.markers
    (us || m.1, uy || m.2)

/-- A type is `Send` when its markers' first component holds. -/
def RustTy.isSend (t : RustTy) : Bool := t.markers.1

/-- A type is `Sync` when its markers' second component holds. -/
def RustTy.isSync (t : RustTy) : Bool := t.markers.2

/-- A raw native handle (`mxlInstance`, `mxlFlowReader`,
`mxlFlowWriter`: `*mut` pointers): neither `Send` nor `Sync`. -/
def rawHandleTy : RustTy := .prim false false

/-- Modelled from the spec: `MxlApiHandle` (the shared, dynamically
loaded function-pointer table; its type alias is not among the Rust
sources, only its uses).  Per the spec the loaded symbol table is part
of the context "shared by all objects" across threads, so it is `Send`
and `Sync`. -/
def mxlApiHandleTy : RustTy := .prim true true

/-- `InstanceContext` (`instance.rs:12-21`): fields `api` and
`instance`, with `unsafe impl Send` and `unsafe impl Sync`. -/
def instanceContextTy : RustTy :=
  .declared (.prod mxlApiHandleTy rawHandleTy) true true

/-- `MxlInstance` (`instance.rs:65-68`): a single
`Arc<InstanceContext>` field, no unsafe impls. -/
def mxlInstanceTy : RustTy :=
  .declared (.arc instanceContextTy) false false

/-- `GrainReader` (`grain/reader.rs:12-19`): `Arc<InstanceContext>`
plus a raw reader handle; `unsafe impl Send` only. -/
def grainReaderTy : RustTy :=
  .declared (.prod (.arc instanceContextTy) rawHandleTy) true false

/-- `GrainWriter` (`grain/writer.rs:8-15`): same shape and impls as
`GrainReader`. -/
def grainWriterTy : RustTy :=
  .declared (.prod (.arc instanceContextTy) rawHandleTy) true false

/-- `SamplesReader` (`samples/reader.rs:15-22`): same shape and impls. -/
def samplesReaderTy : RustTy :=
  .declared (.prod (.arc instanceContextTy) rawHandleTy) true false

/-- `SamplesWriter` (`samples/writer.rs:9-16`): same shape and impls. -/
def samplesWriterTy : RustTy :=
  .declared (.prod (.arc instanceContextTy) rawHandleTy) true false

/-! # Theorems -/

set_option maxHeartbeats 1600000 in
/-- **C1.** `Error::from_status` returns `Ok(())` iff the status is
`MXL_STATUS_OK`; every status in the known set maps to the
corresponding variant of the closed `Error` enum; and every status
outside the known set maps to the fallback `Error::Unknown`. -/
theorem c1_from_status_closed_mapping :
    (∀ s : Nat, Error.from_status s = .ok () ↔ s = MXL_STATUS_OK)
    ∧ (Error.from_status MXL_ERR_UNKNOWN = .error .Unknown
      ∧ Error.from_status MXL_ERR_FLOW_NOT_FOUND = .error .FlowNotFound
      ∧ Error.from_status MXL_ERR_OUT_OF_RANGE_TOO_LATE = .error .OutOfRangeTooLate
      ∧ Error.from_status MXL_ERR_OUT_OF_RANGE_TOO_EARLY = .error .OutOfRangeTooEarly
      ∧ Error.from_status MXL_ERR_INVALID_FLOW_READER = .error .InvalidFlowReader
      ∧ Error.from_status MXL_ERR_INVALID_FLOW_WRITER = .error .InvalidFlowWriter
      ∧ Error.from_status MXL_ERR_TIMEOUT = .error .Timeout
      ∧ Error.from_status MXL_ERR_INVALID_ARG = .error .InvalidArg
      ∧ Error.from_status MXL_ERR_CONFLICT = .error .Conflict)
    ∧ (∀ s : Nat, s ∉ knownStatuses → Error.from_status s = .error .Unknown) := by
  refine ⟨fun s => ?_, ⟨rfl, rfl, rfl, rfl, rfl, rfl, rfl, rfl, rfl⟩, fun s hs => ?_⟩
  · constructor
    · intro h
      unfold Error.from_status at h
      split_ifs at h with h0 h1 h2 h3 h4 h5 h6 h7 h8 h9
      exact h0
    · intro h
      subst h
      rfl
  · unfold Error.from_status
    split_ifs with h0 h1 h2 h3 h4 h5 h6 h7 h8 h9
    · exact absurd (show s ∈ knownStatuses by rw [h0]; decide) hs
    · exact absurd (show s ∈ knownStatuses by rw [h1]; decide) hs
    · exact absurd (show s ∈ knownStatuses by rw [h2]; decide) hs
    · exact absurd (show s ∈ knownStatuses by rw [h3]; decide) hs
    · exact absurd (show s ∈ knownStatuses by rw [h4]; decide) hs
    · exact absurd (show s ∈ knownStatuses by rw [h5]; decide) hs
    · exact absurd (show s ∈ knownStatuses by rw [h6]; decide) hs
    · exact absurd (show s ∈ knownStatuses by rw [h7]; decide) hs
    · exact absurd (show s ∈ knownStatuses by rw [h8]; decide) hs
    · exact absurd (show s ∈ knownStatuses by rw [h9]; decide) hs
    · rfl

/-- Witness for C1: the unknown status 1234 maps to the fallback
variant, and status 0 maps to `Ok(())`. -/
theorem c1_from_status_closed_mapping_witness :
    Error.from_status 1234 = .error .Unknown ∧ Error.from_status 0 = .ok () :=
  ⟨c1_from_status_closed_mapping.2.2 1234 (by decide),
   (c1_from_status_closed_mapping.1 0).mpr rfl⟩

/-! ### Write-session trace lemmas -/

lemma grainSessionTrace_commit_le (native : WriterNativeCall → Nat)
    (g : GrainInfo) (sz : Nat) (h : sz ≤ g.grainSize) :
    grainSessionTrace native g (.commit sz)
      = [.commitGrain { grainSize := g.grainSize, commitedSize := sz }] := by
  simp [grainSessionTrace, GrainWriteAccess.new, GrainWriteAccess.commit,
    GrainWriteAccess.dropCalls, Nat.not_lt.mpr h]

lemma grainSessionTrace_commit_gt (native : WriterNativeCall → Nat)
    (g : GrainInfo) (sz : Nat) (h : g.grainSize < sz) :
    grainSessionTrace native g (.commit sz) = [] := by
  simp [grainSessionTrace, GrainWriteAccess.new, GrainWriteAccess.commit,
    GrainWriteAccess.dropCalls, h]

lemma grainSessionTrace_cancel (native : WriterNativeCall → Nat)
    (g : GrainInfo) :
    grainSessionTrace native g .cancel = [.cancelGrain] := by
  simp [grainSessionTrace, GrainWriteAccess.new, GrainWriteAccess.cancel,
    GrainWriteAccess.dropCalls]

lemma grainSessionTrace_drop (native : WriterNativeCall → Nat)
    (g : GrainInfo) :
    grainSessionTrace native g .drop = [.cancelGrain] := by
  simp [grainSessionTrace, GrainWriteAccess.new, GrainWriteAccess.dropCalls]

lemma samplesSessionTrace_commit (native : WriterNativeCall → Nat) (sz : Nat) :
    samplesSessionTrace native (.commit sz) = [.commitSamples] := by
  simp [samplesSessionTrace, SamplesWriteAccess.new, SamplesWriteAccess.commit,
    SamplesWriteAccess.dropCalls]

lemma samplesSessionTrace_cancel (native : WriterNativeCall → Nat) :
    samplesSessionTrace native .cancel = [.cancelSamples] := by
  simp [samplesSessionTrace, SamplesWriteAccess.new, SamplesWriteAccess.cancel,
    SamplesWriteAccess.dropCalls]

lemma samplesSessionTrace_drop (native : WriterNativeCall → Nat) :
    samplesSessionTrace native .drop = [.cancelSamples] := by
  simp [samplesSessionTrace, SamplesWriteAccess.new, SamplesWriteAccess.dropCalls]

/-- **C2.** Over any complete write-session lifecycle of
`GrainWriteAccess` or `SamplesWriteAccess`: the native commit function
appears in the trace only when the session's `commit` method was
called; the native cancel appears only when `cancel` was called or the
session was dropped without an explicit call; a session dropped with
neither commit nor cancel called issues exactly the native cancel; and
the cancel/drop paths never issue the native commit. -/
theorem c2_write_session_raii :
    ∀ (native : WriterNativeCall → Nat) (g : GrainInfo) (a : SessionAction),
      (∀ info, WriterNativeCall.commitGrain info ∈ grainSessionTrace native g a →
        ∃ sz, a = .commit sz)
      ∧ (WriterNativeCall.cancelGrain ∈ grainSessionTrace native g a →
        a = .cancel ∨ a = .drop)
      ∧ grainSessionTrace native g .drop = [.cancelGrain]
      ∧ (∀ info, WriterNativeCall.commitGrain info ∉ grainSessionTrace native g .cancel
          ∧ WriterNativeCall.commitGrain info ∉ grainSessionTrace native g .drop)
      ∧ (WriterNativeCall.commitSamples ∈ samplesSessionTrace native a →
        ∃ sz, a = .commit sz)
      ∧ (WriterNativeCall.cancelSamples ∈ samplesSessionTrace native a →
        a = .cancel ∨ a = .drop)
      ∧ samplesSessionTrace native .drop = [.cancelSamples]
      ∧ (WriterNativeCall.commitSamples ∉ samplesSessionTrace native .cancel
        ∧ WriterNativeCall.commitSamples ∉ samplesSessionTrace native .drop) := by
  intro native g a
  refine ⟨?_, ?_, grainSessionTrace_drop native g, ?_, ?_, ?_,
    samplesSessionTrace_drop native, ?_⟩
  · intro info hmem
    cases a with
    | commit sz => exact ⟨sz, rfl⟩
    | cancel => simp [grainSessionTrace_cancel] at hmem
    | drop => simp [grainSessionTrace_drop] at hmem
  · intro hmem
    cases a with
    | commit sz =>
      rcases Nat.lt_or_ge g.grainSize sz with h | h
      · simp [grainSessionTrace_commit_gt native g sz h] at hmem
      · simp [grainSessionTrace_commit_le native g sz h] at hmem
    | cancel => exact Or.inl rfl
    | drop => exact Or.inr rfl
  · intro info
    constructor
    · simp [grainSessionTrace_cancel]
    · simp [grainSessionTrace_drop]
  · intro hmem
    cases a with
    | commit sz => exact ⟨sz, rfl⟩
    | cancel => simp [samplesSessionTrace_cancel] at hmem
    | drop => simp [samplesSessionTrace_drop] at hmem
  · intro hmem
    cases a with
    | commit sz => simp [samplesSessionTrace_commit] at hmem
    | cancel => exact Or.inl rfl
    | drop => exact Or.inr rfl
  · constructor
    · simp [samplesSessionTrace_cancel]
    · simp [samplesSessionTrace_drop]

/-- Witness for C2: with an always-OK native library and a 10-byte
grain, a committed session's trace holds the native commit, a dropped
session cancels, and the drop of a canceled session adds nothing. -/
theorem c2_write_session_raii_witness :
    (∃ sz, SessionAction.commit 5 = SessionAction.commit sz)
    ∧ (SessionAction.cancel = SessionAction.cancel ∨
       SessionAction.cancel = SessionAction.drop)
    ∧ grainSessionTrace (fun _ => 0) ⟨10, 0⟩ .drop = [.cancelGrain]
    ∧ samplesSessionTrace (fun _ => 0) .drop = [.cancelSamples] := by
  have h := c2_write_session_raii (fun _ => 0) ⟨10, 0⟩
  exact ⟨(h (.commit 5)).1 ⟨10, 5⟩ (by decide),
    (h .cancel).2.1 (by decide), (h .drop).2.2.1, (h .drop).2.2.2.2.2.2.1⟩

/-- **C9.** `GrainWriteAccess::commit` with a committed size strictly
greater than the grain size returns `Error::Other` without invoking the
native commit, and since the `committed_or_canceled` flag is set before
the size check, the session's full lifecycle trace is empty: no native
finalization call at all. -/
theorem c9_oversize_commit_no_finalization :
    ∀ (native : WriterNativeCall → Nat) (g : GrainInfo) (sz : Nat),
      g.grainSize < sz →
      ((GrainWriteAccess.new g).commit native sz).1
        = .error (.Other ("Commited size " ++ toString sz ++
            " cannot exceed grain size " ++ toString g.grainSize ++ "."))
      ∧ ((GrainWriteAccess.new g).commit native sz).2.1.committed_or_canceled = true
      ∧ grainSessionTrace native g (.commit sz) = [] := by
  intro native g sz h
  refine ⟨?_, ?_, grainSessionTrace_commit_gt native g sz h⟩
  · simp [GrainWriteAccess.new, GrainWriteAccess.commit, h]
  · simp [GrainWriteAccess.new, GrainWriteAccess.commit, h]

/-- Witness for C9: committing 5 bytes into a 4-byte grain fails with
the formatted error and leaves an empty native-call trace. -/
theorem c9_oversize_commit_no_finalization_witness :
    ((GrainWriteAccess.new ⟨4, 0⟩).commit (fun _ => 0) 5).1
      = .error (.Other "Commited size 5 cannot exceed grain size 4.")
    ∧ ((GrainWriteAccess.new ⟨4, 0⟩).commit (fun _ => 0) 5).2.1.committed_or_canceled = true
    ∧ grainSessionTrace (fun _ => 0) ⟨4, 0⟩ (.commit 5) = [] :=
  c9_oversize_commit_no_finalization (fun _ => 0) ⟨4, 0⟩ 5 (by decide)

/-- **C3.** For every reader/writer wrapper: a successful `destroy`
nulls the stored handle; over the wrapper's whole lifetime — whether it
ends in an explicit `destroy` (whose consumed `self` is then dropped)
or in a plain drop — a wrapper holding handle `h` passes exactly `[h]`
to the native release function (so at most one release per handle) and
a nulled wrapper passes none; and a release attempt on an
already-nulled handle returns `Err(Error::InvalidArg)` with no native
call. -/
theorem c3_handle_release_at_most_once :
    ∀ (native : Nat → Nat) (w : HandleWrapper) (h : Nat) (e : WrapperEnd),
      ((w.destroy native).1 = .ok () → (w.destroy native).2.1.handle = none)
      ∧ wrapperLifetimeCalls native ⟨some h⟩ e = [h]
      ∧ wrapperLifetimeCalls native ⟨none⟩ e = []
      ∧ HandleWrapper.destroy_inner native ⟨none⟩ = (.error .InvalidArg, ⟨none⟩, []) := by
  intro native w h e
  refine ⟨?_, ?_, ?_, rfl⟩
  · intro hok
    cases hw : w.handle with
    | none =>
      simp [HandleWrapper.destroy, HandleWrapper.destroy_inner, hw] at hok
    | some x =>
      simp [HandleWrapper.destroy, HandleWrapper.destroy_inner, hw]
  · cases e with
    | destroy =>
      simp [wrapperLifetimeCalls, HandleWrapper.destroy,
        HandleWrapper.destroy_inner, HandleWrapper.dropCalls]
    | drop =>
      simp [wrapperLifetimeCalls, HandleWrapper.dropCalls,
        HandleWrapper.destroy_inner]
  · cases e with
    | destroy =>
      simp [wrapperLifetimeCalls, HandleWrapper.destroy,
        HandleWrapper.destroy_inner, HandleWrapper.dropCalls]
    | drop =>
      simp [wrapperLifetimeCalls, HandleWrapper.dropCalls,
        HandleWrapper.destroy_inner]

/-- Witness for C3: an always-OK native release, a wrapper holding
handle 3, destroyed explicitly. -/
theorem c3_handle_release_at_most_once_witness :
    (HandleWrapper.destroy (fun _ => 0) ⟨some 3⟩).2.1.handle = none
    ∧ wrapperLifetimeCalls (fun _ => 0) ⟨some 3⟩ .destroy = [3]
    ∧ wrapperLifetimeCalls (fun _ => 0) ⟨none⟩ .drop = []
    ∧ HandleWrapper.destroy_inner (fun _ => 0) ⟨none⟩
      = (.error .InvalidArg, ⟨none⟩, []) :=
  have h := c3_handle_release_at_most_once (fun _ => 0) ⟨some 3⟩ 3 .destroy
  ⟨h.1 rfl, h.2.1,
   (c3_handle_release_at_most_once (fun _ => 0) ⟨some 3⟩ 3 .drop).2.2.1,
   h.2.2.2⟩

/-- Invariant of the `get_complete_grain` loop: an `Ok` result has a
payload of full length, comes from a native read that reported
`commitedSize = grainSize`, and every earlier read in the loop
returned an OK status with a partially committed grain. -/
lemma get_complete_grain_loop_ok_inv (native : Nat → GrainReadResp)
    (index : Nat) :
    ∀ (fuel k : Nat) (d : GrainData),
      get_complete_grain_loop native index fuel k = some (.ok d) →
      d.payload.length = d.total_size
      ∧ ∃ j, k ≤ j ∧ j < k + fuel
          ∧ (native j).grain_info.commitedSize = (native j).grain_info.grainSize
          ∧ d.total_size = (native j).grain_info.grainSize
          ∧ ∀ i, k ≤ i → i < j →
              Error.from_status (native i).status = .ok ()
              ∧ (native i).grain_info.commitedSize ≠ (native i).grain_info.grainSize := by
  intro fuel
  induction fuel with
  | zero =>
    intro k d hd
    simp [get_complete_grain_loop] at hd
  | succ n ih =>
    intro k d hd
    simp only [get_complete_grain_loop] at hd
    cases hst : Error.from_status (native k).status with
    | error e =>
      rw [hst] at hd
      simp at hd
    | ok u =>
      cases u
      rw [hst] at hd
      by_cases hpart :
          (native k).grain_info.commitedSize ≠ (native k).grain_info.grainSize
      · rw [if_pos hpart] at hd
        obtain ⟨hlen, j, hkj, hjlt, hcomm, hsize, hprior⟩ := ih (k + 1) d hd
        refine ⟨hlen, j, by omega, by omega, hcomm, hsize, ?_⟩
        intro i hki hij
        rcases Nat.eq_or_lt_of_le hki with he | hlt
        · rw [← he]
          exact ⟨hst, hpart⟩
        · exact hprior i (by omega) hij
      · rw [if_neg hpart] at hd
        cases hp : (native k).payload with
        | none =>
          rw [hp] at hd
          simp at hd
        | some mem =>
          rw [hp] at hd
          have hd' :
              (⟨(List.range (native k).grain_info.grainSize).map mem,
                (native k).grain_info.grainSize, (native k).user_data⟩ : GrainData)
                = d := by
            exact Except.ok.inj (Option.some.inj hd)
          rw [← hd']
          refine ⟨by simp, k, Nat.le_refl k, by omega, not_not.mp hpart, rfl, ?_⟩
          intro i hki hik
          omega

/-- **C4.** `get_complete_grain` never returns a partial grain: an `Ok`
result has payload length equal to the grain's total size and comes
from a native read reporting `commitedSize = grainSize`, after earlier
reads that all returned OK with a partially committed grain; a native
error status is propagated immediately as `Err` without any further
native read; and the one retry step is exactly a re-issued native read
while the grain is partially committed. -/
theorem c4_get_complete_grain_complete_only :
    ∀ (native : Nat → GrainReadResp) (index fuel k : Nat),
      (∀ d, get_complete_grain_loop native index fuel k = some (.ok d) →
        d.payload.length = d.total_size
        ∧ ∃ j, k ≤ j ∧ j < k + fuel
            ∧ (native j).grain_info.commitedSize = (native j).grain_info.grainSize
            ∧ d.total_size = (native j).grain_info.grainSize
            ∧ ∀ i, k ≤ i → i < j →
                Error.from_status (native i).status = .ok ()
                ∧ (native i).grain_info.commitedSize ≠ (native i).grain_info.grainSize)
      ∧ (∀ d, get_complete_grain native index fuel = some (.ok d) →
          d.payload.length = d.total_size)
      ∧ (∀ e, Error.from_status (native k).status = .error e →
          get_complete_grain_loop native index (fuel + 1) k = some (.error e))
      ∧ (Error.from_status (native k).status = .ok () →
          (native k).grain_info.commitedSize ≠ (native k).grain_info.grainSize →
          get_complete_grain_loop native index (fuel + 1) k
            = get_complete_grain_loop native index fuel (k + 1)) := by
  intro native index fuel k
  refine ⟨fun d hd => get_complete_grain_loop_ok_inv native index fuel k d hd,
    fun d hd => (get_complete_grain_loop_ok_inv native index fuel 0 d hd).1,
    fun e hst => ?_, fun hok hpart => ?_⟩
  · simp only [get_complete_grain_loop]
    rw [hst]
  · simp only [get_complete_grain_loop]
    rw [hok, if_pos hpart]

/-- A concrete native-read oracle: the first read reports the grain
partially committed (1 of 2 bytes), the second reports it complete with
payload bytes 5, 6 and user data byte 9. -/
def grainOracleA : Nat → GrainReadResp :=
  fun k =>
    if k = 0 then ⟨MXL_STATUS_OK, ⟨2, 1⟩, [], none⟩
    else ⟨MXL_STATUS_OK, ⟨2, 2⟩, [9], some (fun i => i + 5)⟩

/-- A concrete native-read oracle that reports a timeout at once. -/
def grainOracleB : Nat → GrainReadResp :=
  fun _ => ⟨MXL_ERR_TIMEOUT, ⟨2, 1⟩, [], none⟩

/-- Witness for C4: under `grainOracleA` the loop returns the complete
2-byte grain after one retry; under `grainOracleB` the timeout is
propagated on the first read; and the retry step under `grainOracleA`
is a re-issued read. -/
theorem c4_get_complete_grain_complete_only_witness :
    ((⟨[5, 6], 2, [9]⟩ : GrainData).payload.length
        = (⟨[5, 6], 2, [9]⟩ : GrainData).total_size
      ∧ ∃ j, 0 ≤ j ∧ j < 0 + 2
          ∧ (grainOracleA j).grain_info.commitedSize
            = (grainOracleA j).grain_info.grainSize
          ∧ (⟨[5, 6], 2, [9]⟩ : GrainData).total_size
            = (grainOracleA j).grain_info.grainSize
          ∧ ∀ i, 0 ≤ i → i < j →
              Error.from_status (grainOracleA i).status = .ok ()
              ∧ (grainOracleA i).grain_info.commitedSize
                ≠ (grainOracleA i).grain_info.grainSize)
    ∧ get_complete_grain_loop grainOracleB 11 1 0 = some (.error .Timeout)
    ∧ get_complete_grain_loop grainOracleA 11 2 0
      = get_complete_grain_loop grainOracleA 11 1 1 :=
  ⟨(c4_get_complete_grain_complete_only grainOracleA 11 2 0).1 ⟨[5, 6], 2, [9]⟩ rfl,
   (c4_get_complete_grain_complete_only grainOracleB 11 0 0).2.2.1 .Timeout rfl,
   (c4_get_complete_grain_complete_only grainOracleA 11 1 0).2.2.2 rfl (by decide)⟩

/-- **C5.** When the native grain read reports the timeout status, the
blocking `get_complete_grain` fails with `Err(Error::Timeout)`. -/
theorem c5_blocking_read_timeout :
    ∀ (native : Nat → GrainReadResp) (index fuel : Nat),
      (native 0).status = MXL_ERR_TIMEOUT →
      get_complete_grain native index (fuel + 1) = some (.error .Timeout) := by
  intro native index fuel hst
  have h : Error.from_status (native 0).status = .error .Timeout := by
    rw [hst]
    rfl
  unfold get_complete_grain
  simp only [get_complete_grain_loop]
  rw [h]

/-- Witness for C5: the timeout oracle makes `get_complete_grain`
return `Err(Error::Timeout)`. -/
theorem c5_blocking_read_timeout_witness :
    get_complete_grain grainOracleB 11 1 = some (.error .Timeout) :=
  c5_blocking_read_timeout grainOracleB 11 0 rfl

/-! ### Buffer lemmas for `get_flow_def` -/

lemma getD_append_cons (D : List Nat) (x : Nat) (rest : List Nat) (d : Nat) :
    (D ++ x :: rest).getD D.length d = x := by
  induction D with
  | nil => rfl
  | cons a D ih => simpa [List.getD] using ih

lemma bufferAfter_nul_terminated (size : Nat) (D : List Nat)
    (h : D.length + 1 ≤ size) :
    bufferAfter size (D ++ [0]) = D ++ 0 :: List.replicate (size - (D.length + 1)) 0 := by
  unfold bufferAfter
  rw [List.take_of_length_le (by simpa using h)]
  simp

lemma bufferAfter_getD (size : Nat) (D : List Nat) (h : D.length + 1 ≤ size) :
    (bufferAfter size (D ++ [0])).getD D.length 1 = 0 := by
  rw [bufferAfter_nul_terminated size D h]
  exact getD_append_cons D 0 _ 1

lemma bufferAfter_take (size : Nat) (D : List Nat) (h : D.length + 1 ≤ size) :
    (bufferAfter size (D ++ [0])).take D.length = D := by
  rw [bufferAfter_nul_terminated size D h]
  exact List.take_left D (0 :: List.replicate (size - (D.length + 1)) 0)

/-- **C6.** `get_flow_def` returns exactly the flow-definition bytes the
native library produces: when the native side holds definition bytes
`D` and writes them NUL-terminated, the binding returns `Ok(D)` —
byte-identical — after one native call if `D` plus its NUL fits the
initial 4096-byte buffer, and after exactly one retry with a buffer of
the reported size if not; the single trailing NUL is stripped; and
bytes that are not valid UTF-8 produce an error instead. -/
theorem c6_get_flow_def_roundtrip :
    ∀ (native : Nat → FlowDefResp) (D : List Nat),
      (D.length + 1 ≤ INITIAL_BUFFER_SIZE →
        native INITIAL_BUFFER_SIZE = ⟨MXL_STATUS_OK, D.length + 1, D ++ [0]⟩ →
        validUtf8 D = true →
        get_flow_def native = (.ok D, [INITIAL_BUFFER_SIZE]))
      ∧ (∀ junk, INITIAL_BUFFER_SIZE < D.length + 1 →
        native INITIAL_BUFFER_SIZE = ⟨MXL_ERR_INVALID_ARG, D.length + 1, junk⟩ →
        native (D.length + 1) = ⟨MXL_STATUS_OK, D.length + 1, D ++ [0]⟩ →
        validUtf8 D = true →
        get_flow_def native = (.ok D, [INITIAL_BUFFER_SIZE, D.length + 1]))
      ∧ (D.length + 1 ≤ INITIAL_BUFFER_SIZE →
        native INITIAL_BUFFER_SIZE = ⟨MXL_STATUS_OK, D.length + 1, D ++ [0]⟩ →
        validUtf8 D = false →
        get_flow_def native
          = (.error (.Other "Invalid UTF-8 in flow definition"),
             [INITIAL_BUFFER_SIZE])) := by
  intro native D
  have hfs : Error.from_status MXL_STATUS_OK = .ok () := rfl
  refine ⟨fun hfit hnat hval => ?_, fun junk hbig hnat1 hnat2 hval => ?_,
    fun hfit hnat hval => ?_⟩
  · unfold get_flow_def
    rw [hnat]
    simp only
    have hc1 : ¬(MXL_STATUS_OK = MXL_ERR_INVALID_ARG
        ∧ D.length + 1 > INITIAL_BUFFER_SIZE) := by
      intro hc
      exact absurd hc.1 (by decide)
    rw [if_neg hc1]
    simp only [hfs]
    have hc2 : D.length + 1 > 0 ∧
        (bufferAfter INITIAL_BUFFER_SIZE (D ++ [0])).getD (D.length + 1 - 1) 1 = 0 :=
      ⟨Nat.succ_pos _, by simpa using bufferAfter_getD INITIAL_BUFFER_SIZE D hfit⟩
    rw [if_pos hc2]
    simp only [Nat.add_sub_cancel]
    rw [bufferAfter_take INITIAL_BUFFER_SIZE D hfit]
    rw [if_pos hval]
  · unfold get_flow_def
    rw [hnat1]
    simp only
    have hc1 : True ∧ D.length + 1 > INITIAL_BUFFER_SIZE := ⟨trivial, hbig⟩
    rw [if_pos hc1]
    rw [hnat2]
    simp only [hfs]
    have hc2 : D.length + 1 > 0 ∧
        (bufferAfter (D.length + 1) (D ++ [0])).getD (D.length + 1 - 1) 1 = 0 :=
      ⟨Nat.succ_pos _, by simpa using bufferAfter_getD (D.length + 1) D (Nat.le_refl _)⟩
    rw [if_pos hc2]
    simp only [Nat.add_sub_cancel]
    rw [bufferAfter_take (D.length + 1) D (Nat.le_refl _)]
    rw [if_pos hval]
  · unfold get_flow_def
    rw [hnat]
    simp only
    have hc1 : ¬(MXL_STATUS_OK = MXL_ERR_INVALID_ARG
        ∧ D.length + 1 > INITIAL_BUFFER_SIZE) := by
      intro hc
      exact absurd hc.1 (by decide)
    rw [if_neg hc1]
    simp only [hfs]
    have hc2 : D.length + 1 > 0 ∧
        (bufferAfter INITIAL_BUFFER_SIZE (D ++ [0])).getD (D.length + 1 - 1) 1 = 0 :=
      ⟨Nat.succ_pos _, by simpa using bufferAfter_getD INITIAL_BUFFER_SIZE D hfit⟩
    rw [if_pos hc2]
    simp only [Nat.add_sub_cancel]
    rw [bufferAfter_take INITIAL_BUFFER_SIZE D hfit]
    rw [if_neg (by simp [hval])]

lemma validUtf8_replicate_ascii (n b : Nat) (h : b < 128) :
    validUtf8 (List.replicate n b) = true := by
  have hstep : utf8Step (some []) b = some [] := by
    simp [utf8Step, utf8Class, h]
  unfold validUtf8
  rw [decide_eq_true_eq]
  induction n with
  | zero => rfl
  | succ m ih =>
    rw [List.replicate_succ, List.foldl_cons, hstep]
    exact ih

/-- A native `mxlGetFlowDef` oracle whose definition is the 2 bytes
`hi`, NUL-terminated, fitting the initial buffer. -/
def flowDefOracleA : Nat → FlowDefResp :=
  fun _ => ⟨MXL_STATUS_OK, 3, [104, 105, 0]⟩

/-- A native `mxlGetFlowDef` oracle whose definition is 4096 bytes of
`h`, too large for the initial 4096-byte buffer once NUL-terminated: the
first call reports `MXL_ERR_INVALID_ARG` with required size 4097, the
retry succeeds. -/
def flowDefOracleB : Nat → FlowDefResp :=
  fun size =>
    if size = INITIAL_BUFFER_SIZE then ⟨MXL_ERR_INVALID_ARG, 4097, []⟩
    else ⟨MXL_STATUS_OK, 4097, List.replicate 4096 104 ++ [0]⟩

/-- A native `mxlGetFlowDef` oracle producing the invalid UTF-8 byte
255. -/
def flowDefOracleC : Nat → FlowDefResp :=
  fun _ => ⟨MXL_STATUS_OK, 2, [255, 0]⟩

/-- Witness for C6: the three oracles exercise the single-call path,
the one-retry path and the invalid-UTF-8 path. -/
theorem c6_get_flow_def_roundtrip_witness :
    get_flow_def flowDefOracleA = (.ok [104, 105], [INITIAL_BUFFER_SIZE])
    ∧ get_flow_def flowDefOracleB
      = (.ok (List.replicate 4096 104), [INITIAL_BUFFER_SIZE, 4097])
    ∧ get_flow_def flowDefOracleC
      = (.error (.Other "Invalid UTF-8 in flow definition"),
         [INITIAL_BUFFER_SIZE]) := by
  refine ⟨?_, ?_, ?_⟩
  · exact (c6_get_flow_def_roundtrip flowDefOracleA [104, 105]).1
      (by decide) rfl rfl
  · have hlen : (List.replicate 4096 104 : List Nat).length = 4096 :=
      List.length_replicate 4096 104
    have h := (c6_get_flow_def_roundtrip flowDefOracleB
      (List.replicate 4096 104)).2.1 []
      (by rw [hlen]; decide)
      (by rw [hlen]; decide)
      (by
        rw [hlen]
        simp only [flowDefOracleB, Nat.reduceAdd]
        rw [if_neg (show (4097 : Nat) ≠ INITIAL_BUFFER_SIZE by decide)])
      (validUtf8_replicate_ascii 4096 104 (by norm_num))
    rw [hlen] at h
    exact h
  · exact (c6_get_flow_def_roundtrip flowDefOracleC [255]).2.2
      (by decide) rfl rfl

/-- **C7** (refuting the destruction half of the claim on the code).
With another holder of the shared context, `MxlInstance::destroy` does
return `Err("Instance is still in use.")` without touching the native
library, and no lifecycle issues more than one `mxlDestroyInstance`
call.  But an exclusive destroy of an instance holding native handle 7
issues the native `mxlDestroyInstance` with the NULL handle — the code
swaps the stored handle into a local and then passes the just-nulled
FIELD (`instance.rs:29-30`) — so the real handle 7 is never passed to
the native destroy at all, contradicting the function's own
documentation that it "forces the destruction of the MXL instance". -/
theorem c7_exclusive_destroy_passes_null :
    MxlInstance.destroy ⟨⟨some 7⟩, 1⟩
      = (.error (.Other "Instance is still in use."), [])
    ∧ MxlInstance.destroy ⟨⟨some 7⟩, 0⟩ = (.ok (), [.destroyInstance none])
    ∧ InstanceCall.destroyInstance (some 7) ∉ (MxlInstance.destroy ⟨⟨some 7⟩, 0⟩).2
    ∧ (MxlInstance.destroy ⟨⟨some 7⟩, 0⟩).2.length ≤ 1
    ∧ InstanceContext.dropCalls ⟨some 7⟩ = [.destroyInstance (some 7)] := by
  refine ⟨rfl, rfl, by decide, by decide, rfl⟩

/-- **C8.** Under Rust's `Send`/`Sync` rules applied to the declared
field types and `unsafe impl`s: `MxlInstance` is both `Send` and
`Sync` (shareable and usable across threads), while `GrainReader`,
`GrainWriter`, `SamplesReader` and `SamplesWriter` are `Send` but not
`Sync` — they may be moved between threads but never shared. -/
theorem c8_send_sync_markers :
    (mxlInstanceTy.isSend = true ∧ mxlInstanceTy.isSync = true)
    ∧ (grainReaderTy.isSend = true ∧ grainReaderTy.isSync = false)
    ∧ (grainWriterTy.isSend = true ∧ grainWriterTy.isSync = false)
    ∧ (samplesReaderTy.isSend = true ∧ samplesReaderTy.isSync = false)
    ∧ (samplesWriterTy.isSend = true ∧ samplesWriterTy.isSync = false) := by
  decide

/-- **C10.** Each time/index conversion returns `Err` exactly when the
native function returns the sentinel `u64::MAX` (reported as an
invalid-rate `Error::Other`), and otherwise returns the native value
unchanged. -/
theorem c10_conversions_sentinel :
    ∀ (v : Nat) (rate : MxlRational),
      ((∃ e, get_duration_until_index v rate = .error e) ↔ v = U64_MAX)
      ∧ (v ≠ U64_MAX → get_duration_until_index v rate = .ok v)
      ∧ ((∃ e, timestamp_to_index v rate = .error e) ↔ v = U64_MAX)
      ∧ (v ≠ U64_MAX → timestamp_to_index v rate = .ok v)
      ∧ ((∃ e, index_to_timestamp v rate = .error e) ↔ v = U64_MAX)
      ∧ (v ≠ U64_MAX → index_to_timestamp v rate = .ok v) := by
  intro v rate
  by_cases hv : v = U64_MAX
  · subst hv
    refine ⟨⟨fun _ => rfl, fun _ => ?_⟩, fun hne => absurd rfl hne,
      ⟨fun _ => rfl, fun _ => ?_⟩, fun hne => absurd rfl hne,
      ⟨fun _ => rfl, fun _ => ?_⟩, fun hne => absurd rfl hne⟩
    · exact ⟨invalidRateMsg "get duration until index" rate, by
        simp [get_duration_until_index]⟩
    · exact ⟨invalidRateMsg "convert timestamp to index" rate, by
        simp [timestamp_to_index]⟩
    · exact ⟨invalidRateMsg "convert index to timestamp" rate, by
        simp [index_to_timestamp]⟩
  · refine ⟨⟨fun he => ?_, fun h => absurd h hv⟩, fun _ => ?_,
      ⟨fun he => ?_, fun h => absurd h hv⟩, fun _ => ?_,
      ⟨fun he => ?_, fun h => absurd h hv⟩, fun _ => ?_⟩
    · obtain ⟨e, he⟩ := he
      simp [get_duration_until_index, hv] at he
    · simp [get_duration_until_index, hv]
    · obtain ⟨e, he⟩ := he
      simp [timestamp_to_index, hv] at he
    · simp [timestamp_to_index, hv]
    · obtain ⟨e, he⟩ := he
      simp [index_to_timestamp, hv] at he
    · simp [index_to_timestamp, hv]

/-- Witness for C10: the native value 5 with rate 50/1 converts to
`Ok(5)` in all three conversions, and the sentinel produces an error. -/
theorem c10_conversions_sentinel_witness :
    get_duration_until_index 5 ⟨50, 1⟩ = .ok 5
    ∧ timestamp_to_index 5 ⟨50, 1⟩ = .ok 5
    ∧ index_to_timestamp 5 ⟨50, 1⟩ = .ok 5
    ∧ (∃ e, timestamp_to_index U64_MAX ⟨0, 1⟩ = .error e) :=
  have h := c10_conversions_sentinel 5 ⟨50, 1⟩
  have hne : (5 : Nat) ≠ U64_MAX := by decide
  ⟨h.2.1 hne, h.2.2.2.1 hne, h.2.2.2.2.2 hne,
   (c10_conversions_sentinel U64_MAX ⟨0, 1⟩).2.2.1.mpr rfl⟩

end Mxl
